import Mathlib

/-!
Verification of the uPiot MicroPython tool core against its specification.

The development shallowly embeds the two source files:

* `src/commands/burn_firmware.py` — the firmware option compiler
  (`get_board_options`) and the flash orchestrator (`burn_firmware`);
* `src/tools/sampy_manager.py` — the session manager (`start_sampy`,
  `finished_action`) and the command dispatcher functions (`run_file`,
  `list_files`, `get_file`, `get_files`, `put_file`, `remove_file`,
  `make_folder`, `remove_folder`, `help`).

Python strings are embedded as `List Char`.  Stateful / effectful code is
embedded as functions from an explicit environment (describing the outcomes
of all external collaborator calls) to a trace of observable events plus a
termination mode (`normal` return, or a `raised` uncaught Python exception).
-/

/-! ## Python string primitives -/

/-- Python's substring containment `needle in hay` on character lists:
`needle` occurs contiguously in `hay`. -/
def containsSub (needle : List Char) : List Char → Bool
  | [] => needle.isEmpty
  | c :: t => needle.isPrefixOf (c :: t) || containsSub needle t

/-- Python's `str.replace('\r\n', '\n')`: left-to-right, non-overlapping. -/
def replace_crlf : List Char → List Char
  | [] => []
  | [c] => [c]
  | '\r' :: '\n' :: t => '\n' :: replace_crlf t
  | c :: t => c :: replace_crlf t

/-- Python's `str.replace('\r', '\n')` (single-character pattern). -/
def replace_cr : List Char → List Char
  | [] => []
  | c :: t => (if c = '\r' then '\n' else c) :: replace_cr t

/-- Python's `str.replace('    ', '')` (used on the help text): left-to-right,
non-overlapping removal of four-space runs. -/
def strip4 : List Char → List Char
  | ' ' :: ' ' :: ' ' :: ' ' :: t => strip4 t
  | c :: t => c :: strip4 t
  | [] => []

/-- Python's `url.split('/')[-1]`: the last `'/'`-separated component. -/
def split_last (s : List Char) : List Char :=
  (s.splitOn '/').getLastD []

/-- `os.path.basename` with posix separator: the part after the last `'/'`. -/
def basename (p : List Char) : List Char :=
  split_last p

/-- `os.path.join` with posix separator (two arguments). -/
def pyJoin (a b : List Char) : List Char :=
  if b.head? = some '/' then b
  else if a = [] then b
  else if a.getLast? = some '/' then a ++ b
  else a ++ '/' :: b

/-! ## Firmware option compiler (`burn_firmware.py`, `get_board_options`)

The board file's `upload` section is a Python `dict` (insertion ordered,
distinct keys); it is embedded as an ordered association list of
key/value pairs.  `lookupKey` is dict item access `d[k]` returning `none`
for a `KeyError`. -/

/-- Dict lookup `d[k]`: value of the first binding of `k`. -/
def lookupKey (k : List Char) : List (List Char × List Char) → Option (List Char)
  | [] => none
  | kv :: t => if kv.1 = k then some kv.2 else lookupKey k t

/-- The reserved key `'write_flash'`. -/
def wfKeyL : List Char := "write_flash".toList

/-- One loop iteration body of `get_board_options`:
`separator = '' if key.endswith('=') else ' '` and
`option = "{0}{1}{2}".format(key, separator, value)`. -/
def emit_option (key value : List Char) : List Char :=
  if key.getLast? = some '=' then key ++ value else key ++ ' ' :: value

/-- The `for key, value in board_file['upload'].items():` loop of
`get_board_options`: appends `emit_option key value` for every pair whose
key does not contain the substring `'write_flash'`
(`if('write_flash' not in key):`). -/
def board_options_loop : List (List Char × List Char) → List (List Char)
  | [] => []
  | kv :: rest =>
    if containsSub wfKeyL kv.1 then board_options_loop rest
    else emit_option kv.1 kv.2 :: board_options_loop rest

/-- `get_board_options` (value level): run the loop over the upload section,
then append `'write_flash ' + board_file['upload']['write_flash']` last.
A missing `write_flash` key is Python's `KeyError`, embedded as `none`.
(The source looks the key up after the loop; the loop is pure so the
result is the same.) -/
def get_board_options (upload : List (List Char × List Char)) :
    Option (List (List Char)) :=
  match lookupKey wfKeyL upload with
  | none => none
  | some wf => some (board_options_loop upload ++ ["write_flash ".toList ++ wf])

/-! ## Flash orchestrator (`burn_firmware.py`, `burn_firmware`) -/

/-- Observable effects of the `burn_firmware` method. -/
inductive BEvent
  | erase_prompt
  | show_console
  | erase_flash
  | check_port (port : List Char)
  | run_command (options : List (List Char))
  deriving DecidableEq

/-- Result of `sublime.yes_no_cancel_dialog`. -/
inductive Answer
  | yes
  | no
  | cancel
  deriving DecidableEq

/-- Python exception values relevant to the embedded code. -/
inductive PyExc
  | attributeError
  | runtimeError (msg : List Char)
  | fileNotFound (msg : List Char)
  | pyboardError (msg : List Char)
  | dirExists (msg : List Char)
  | typeError (msg : List Char)
  | keyError
  | nameError
  deriving DecidableEq

/-- Termination mode of an embedded Python function: a normal return, or an
uncaught exception propagating out of the function. -/
inductive PyFlow (α : Type)
  | normal (a : α)
  | raised (e : PyExc)
  deriving DecidableEq

/-- `burn_firmware` (the body run after the firmware was selected):
assemble options, show the erase prompt, on cancel return; otherwise show
the console, erase if answered yes, prepend the port argument, check the
port and stop if unreachable, else invoke the external flashing process.
`answer` is the dialog outcome and `port_ok` the `serial.check_port` result. -/
def burn_firmware (upload : List (List Char × List Char))
    (url firmwares port : List Char) (answer : Answer) (port_ok : Bool) :
    List BEvent × PyFlow Unit :=
  let filename := split_last url
  let firmware := pyJoin firmwares filename
  match get_board_options upload with
  | none => ([], PyFlow.raised PyExc.keyError)
  | some opts =>
    let options := opts ++ [firmware]
    if answer = Answer.cancel then ([BEvent.erase_prompt], PyFlow.normal ())
    else
      let tr := [BEvent.erase_prompt, BEvent.show_console] ++
        (if answer = Answer.yes then [BEvent.erase_flash] else [])
      let options := ("--port ".toList ++ port) :: options
      if port_ok then
        (tr ++ [BEvent.check_port port, BEvent.run_command options], PyFlow.normal ())
      else
        (tr ++ [BEvent.check_port port], PyFlow.normal ())

/-! ## Lemmas about the option compiler -/

theorem isPrefixOf_self_append (l a : List Char) : l.isPrefixOf (l ++ a) = true := by
  induction l with
  | nil => cases a <;> rfl
  | cons x xs ih =>
    show (x == x && xs.isPrefixOf (xs ++ a)) = true
    simp [ih]

theorem containsSub_self_append (n a : List Char) : containsSub n (n ++ a) = true := by
  cases n with
  | nil =>
    cases a with
    | nil => rfl
    | cons b bs => rfl
  | cons x xs =>
    show (List.isPrefixOf (x :: xs) (x :: (xs ++ a)) || containsSub (x :: xs) (xs ++ a)) = true
    rw [show List.isPrefixOf (x :: xs) (x :: (xs ++ a)) =
          (x == x && List.isPrefixOf xs (xs ++ a)) from rfl]
    simp [isPrefixOf_self_append]

theorem space_not_mem_wfKeyL : ' ' ∉ wfKeyL := by decide

theorem eq_not_mem_wfKeyL : '=' ∉ wfKeyL := by decide

theorem mem_of_getLast?_eq {l : List Char} {c : Char} (h : l.getLast? = some c) :
    c ∈ l := by
  induction l with
  | nil => simp at h
  | cons x xs ih =>
    cases xs with
    | nil =>
      simp [List.getLast?] at h
      simp [h]
    | cons y ys =>
      rw [List.getLast?_cons_cons] at h
      exact List.mem_cons_of_mem x (ih h)

/-- A space-separated option whose key does not contain `write_flash` can
never coincide with the appended `write_flash` argument. -/
theorem emit_space_ne (k v w : List Char) (hk : containsSub wfKeyL k = false) :
    k ++ ' ' :: v ≠ wfKeyL ++ ' ' :: w := by
  intro h
  rcases List.append_eq_append_iff.mp h with ⟨a, ha, hb⟩ | ⟨c, hc, _⟩
  · cases a with
    | nil =>
      rw [List.append_nil] at ha
      have : containsSub wfKeyL k = true := by
        rw [← ha]
        simpa using containsSub_self_append wfKeyL []
      rw [this] at hk; cases hk
    | cons c a' =>
      have hc : c = ' ' := by
        have := (List.cons.injEq _ _ _ _).mp hb
        exact this.1.symm
      have : ' ' ∈ wfKeyL := by
        rw [ha, hc]
        exact List.mem_append_right k (List.mem_cons_self _ _)
      exact space_not_mem_wfKeyL this
  · have : containsSub wfKeyL k = true := by
      rw [hc]; exact containsSub_self_append wfKeyL c
    rw [this] at hk; cases hk

/-- An `=`-separated option whose key does not contain `write_flash` can
never coincide with the appended `write_flash` argument. -/
theorem emit_eqsep_ne (k v w : List Char) (hk : containsSub wfKeyL k = false)
    (hl : k.getLast? = some '=') : k ++ v ≠ wfKeyL ++ ' ' :: w := by
  intro h
  rcases List.append_eq_append_iff.mp h with ⟨a, ha, _⟩ | ⟨c, hc, _⟩
  · have : '=' ∈ wfKeyL := by
      rw [ha]
      exact List.mem_append_left a (mem_of_getLast?_eq hl)
    exact eq_not_mem_wfKeyL this
  · have : containsSub wfKeyL k = true := by
      rw [hc]; exact containsSub_self_append wfKeyL c
    rw [this] at hk; cases hk

/-- No option emitted by the loop equals the `write_flash` argument. -/
theorem emit_option_ne_wf (k v w : List Char) (hk : containsSub wfKeyL k = false) :
    emit_option k v ≠ wfKeyL ++ ' ' :: w := by
  unfold emit_option
  split
  · next hl => exact emit_eqsep_ne k v w hk hl
  · exact emit_space_ne k v w hk

/-- The loop is the in-order filter/map over the upload section. -/
theorem board_options_loop_eq (upload : List (List Char × List Char)) :
    board_options_loop upload =
      (upload.filter fun kv => !containsSub wfKeyL kv.1).map
        fun kv => emit_option kv.1 kv.2 := by
  induction upload with
  | nil => rfl
  | cons kv rest ih =>
    by_cases h : containsSub wfKeyL kv.1 = true
    · simp [board_options_loop, List.filter_cons, h, ih]
    · have h' : containsSub wfKeyL kv.1 = false := by
        revert h; cases containsSub wfKeyL kv.1 <;> simp
      simp [board_options_loop, List.filter_cons, h', ih]

/-- Every element of the loop output is an emitted option for some pair of
the upload section whose key avoids the `write_flash` substring. -/
theorem mem_loop_emit {x : List Char} {upload : List (List Char × List Char)}
    (hx : x ∈ board_options_loop upload) :
    ∃ kv, kv ∈ upload ∧ containsSub wfKeyL kv.1 = false ∧ x = emit_option kv.1 kv.2 := by
  rw [board_options_loop_eq] at hx
  rcases List.mem_map.mp hx with ⟨kv, hkv, hval⟩
  rcases List.mem_filter.mp hkv with ⟨hmem, hfil⟩
  refine ⟨kv, hmem, ?_, hval.symm⟩
  revert hfil; cases containsSub wfKeyL kv.1 <;> simp

/-- Conversely every admissible pair contributes its emitted option. -/
theorem emit_mem_loop {k v : List Char} {upload : List (List Char × List Char)}
    (hmem : (k, v) ∈ upload) (hk : containsSub wfKeyL k = false) :
    emit_option k v ∈ board_options_loop upload := by
  rw [board_options_loop_eq]
  exact List.mem_map_of_mem _ (List.mem_filter.mpr ⟨hmem, by simp [hk]⟩)

/-- The example board upload section of the specification. -/
def uploadExample : List (List Char × List Char) :=
  [("--flash_mode=".toList, "dio".toList),
   ("--flash_freq".toList, "40m".toList),
   ("write_flash".toList, "0x1000 firmware.bin".toList)]

/-! ## Session manager and command dispatcher (`sampy_manager.py`)

External collaborator calls (`serial`, `message`, the protocol object, the
local filesystem, dialogs) are resolved by an explicit environment `Env`;
each dispatcher function produces the list of observable events it performs
together with its termination mode.  A `Sampy` receiver is embedded as
`Option Unit`: `none` is Python's `None` (a protocol call on it raises
`AttributeError`), `some ()` a live object whose call outcomes come from
the environment. -/

/-- Result of one external / protocol call: a value or a raised exception. -/
inductive PyCall (α : Type)
  | ok (a : α)
  | exc (e : PyExc)

/-- Observable effects of the session manager and dispatcher functions. -/
inductive Event
  | stop_task
  | set_focus
  | connect_attempt
  | txt_print (s : List Char)
  | establish_connection (port : Option (List Char))
  | console_write
  | mk_folder (p : List Char)
  | mkdir_local (p : List Char)
  | write_file (p : List Char)
  | add_dialog
  | add_project (folder : List Char) (append : Bool)
  deriving DecidableEq

/-- Environment: outcomes of every external collaborator call. -/
structure Env where
  selected_port : Option (List Char)
  in_use : List (List Char)
  connect : PyCall Unit
  run_res : PyCall Unit
  ls_res : PyCall (List (List Char))
  get_res : PyCall (List Char)
  get_to_file : List Char → PyCall Unit
  put_res : PyCall Unit
  rm_res : PyCall Unit
  mkdir_res : PyCall Unit
  rmdir_res : PyCall Unit
  path_exists : List Char → Bool
  sidebar : Bool
  dialog : Answer

/-- `port in serial.in_use` (`serial.in_use` holds port names, so a `None`
port is never a member). -/
def port_in_use (port : Option (List Char)) (used : List (List Char)) : Bool :=
  match port with
  | none => false
  | some p => decide (p ∈ used)

/-- The events of `start_sampy` up to and including `txt.set_focus()`:
first the conditional `run_serial.stop_task()` (when the resolved port is
in use and `quiet` is false), then unconditionally `txt = message.open(port)`
followed by `txt.set_focus()` (the sink acquisition itself has no further
observable effect; the focus call is the event). -/
def start_trace (env : Env) (quiet : Bool) : List Event :=
  (if port_in_use env.selected_port env.in_use && !quiet then [Event.stop_task] else [])
    ++ [Event.set_focus]

/-- `start_sampy(quiet)`: resolve the port, stop a running session on it
(unless quiet), open and focus the sink, and — when a port was resolved and
`quiet` is false — attempt the `Sampy(port, ...)` connection.  The source's
handler `except file.PyboardError:` names the undefined global `file`, so a
failing constructor surfaces as a `NameError` raised while the original
exception is being matched; the `'failed to access'` diagnostic and the
`exit(0)` in that handler are unreachable.  With no resolved port or with
`quiet` set, no connection is attempted and `None` is returned. -/
def start_sampy (env : Env) (quiet : Bool) : List Event × PyFlow (Option Unit) :=
  if env.selected_port.isSome && !quiet then
    match env.connect with
    | PyCall.ok _ =>
      (start_trace env quiet ++ [Event.connect_attempt], PyFlow.normal (some ()))
    | PyCall.exc _ =>
      (start_trace env quiet ++ [Event.connect_attempt], PyFlow.raised PyExc.nameError)
  else (start_trace env quiet, PyFlow.normal none)

/-- `finished_action()`: re-establish the serial connection on the global
port and ask the console surface to re-render.  One invocation emits
exactly these two events, `console_write` last. -/
def finished_action (env : Env) : List Event :=
  [Event.establish_connection env.selected_port, Event.console_write]

/-- The fixed session-not-ready text printed by the dispatcher functions. -/
def not_ready_msg : List Char := "Opening console...\nRun the command again.".toList

/-- A protocol call on the `sampy` receiver: calling any attribute of `None`
raises `AttributeError`; on a live object the environment decides. -/
def protoCall {α : Type} (sampy : Option Unit) (res : PyCall α) : PyCall α :=
  match sampy with
  | none => PyCall.exc PyExc.attributeError
  | some _ => res

/-- `run_file(filepath)`: header, `sampy.run`, `[done]` or the not-ready
text on `AttributeError`; any other exception propagates uncaught.  Ends
with `finished_action()` on every non-raising path. -/
def run_file (env : Env) (filepath : List Char) : List Event × PyFlow Unit :=
  match start_sampy env false with
  | (tr, PyFlow.raised e) => (tr, PyFlow.raised e)
  | (tr, PyFlow.normal sampy) =>
    let file := basename filepath
    let tr := tr ++ [Event.txt_print ("\n\n>> Run ".toList ++ file ++
      "\n\n\"ctrl+shift+c\" to stop the script.\n---".toList)]
    match protoCall sampy env.run_res with
    | PyCall.ok _ =>
      (tr ++ [Event.txt_print "\n[done]".toList] ++ finished_action env, PyFlow.normal ())
    | PyCall.exc PyExc.attributeError =>
      (tr ++ [Event.txt_print ("\n\n".toList ++ not_ready_msg)] ++ finished_action env,
        PyFlow.normal ())
    | PyCall.exc e => (tr, PyFlow.raised e)

/-- `list_files()`: header, `sampy.ls()`, one line per name; the not-ready
text on `AttributeError`; any other exception propagates uncaught. -/
def list_files (env : Env) : List Event × PyFlow Unit :=
  match start_sampy env false with
  | (tr, PyFlow.raised e) => (tr, PyFlow.raised e)
  | (tr, PyFlow.normal sampy) =>
    let tr := tr ++ [Event.txt_print "\n\n>> sampy ls\n".toList]
    match protoCall sampy env.ls_res with
    | PyCall.ok names =>
      (tr ++ names.map (fun n => Event.txt_print ('\n' :: n)) ++ finished_action env,
        PyFlow.normal ())
    | PyCall.exc PyExc.attributeError =>
      (tr ++ [Event.txt_print ("\n\n".toList ++ not_ready_msg)] ++ finished_action env,
        PyFlow.normal ())
    | PyCall.exc e => (tr, PyFlow.raised e)

/-- `get_file(filename)`: header, `sampy.get`; only `RuntimeError` is
caught (its message becomes the output).  The output is line-ending
normalized and printed, then `finished_action()` runs.  Any other
exception — notably the `AttributeError` raised when no session exists —
propagates uncaught, skipping both the print and `finished_action()`. -/
def get_file (env : Env) (filename : List Char) : List Event × PyFlow Unit :=
  match start_sampy env false with
  | (tr, PyFlow.raised e) => (tr, PyFlow.raised e)
  | (tr, PyFlow.normal sampy) =>
    let tr := tr ++ [Event.txt_print ("\n\n>> get ".toList ++ filename)]
    match protoCall sampy env.get_res with
    | PyCall.ok raw =>
      (tr ++ [Event.txt_print ("\n\n".toList ++ replace_cr (replace_crlf raw))] ++
        finished_action env, PyFlow.normal ())
    | PyCall.exc (PyExc.runtimeError m) =>
      (tr ++ [Event.txt_print ("\n\n".toList ++ replace_cr (replace_crlf m))] ++
        finished_action env, PyFlow.normal ())
    | PyCall.exc e => (tr, PyFlow.raised e)

/-- The `for filename in sampy.ls():` loop of `get_files`: print a
retrieval line; a name ending in `'/'` makes the local directory when
absent, otherwise the local file is opened for binary write and the remote
content streamed into it (`write_file`; an exception from the open or the
get aborts the loop and propagates to `get_files`).  `os.path.normpath`
only canonicalizes separators and is embedded as the identity. -/
def get_files_loop (env : Env) (destination : List Char) :
    List (List Char) → List Event × PyFlow Unit
  | [] => ([], PyFlow.normal ())
  | filename :: rest =>
    let tr := [Event.txt_print ("\nRetrieving ".toList ++ filename ++ " ...".toList)]
    let filepath := pyJoin destination filename
    if filename.getLast? = some '/' then
      if env.path_exists filepath then
        let (tr', r) := get_files_loop env destination rest
        (tr ++ tr', r)
      else
        let (tr', r) := get_files_loop env destination rest
        (tr ++ [Event.mkdir_local filepath] ++ tr', r)
    else
      match env.get_to_file filename with
      | PyCall.ok _ =>
        let (tr', r) := get_files_loop env destination rest
        (tr ++ [Event.write_file filepath] ++ tr', r)
      | PyCall.exc e => (tr ++ [Event.write_file filepath], PyFlow.raised e)

/-- `get_files(destination)`: make the destination folder, header, bulk
loop; `AttributeError` (from `sampy.ls` on a missing session or from the
loop) is caught and sets the error flag; the outcome text is printed and
`finished_action()` runs; on success without error the add/append dialog
may add the folder to the project.  Any other exception propagates. -/
def get_files (env : Env) (destination : List Char) : List Event × PyFlow Unit :=
  match start_sampy env false with
  | (tr, PyFlow.raised e) => (tr, PyFlow.raised e)
  | (tr, PyFlow.normal sampy) =>
    let tr := tr ++ [Event.mk_folder destination,
      Event.txt_print ("\n\n>> Storing in ".toList ++ destination ++ "\n".toList)]
    match protoCall sampy env.ls_res with
    | PyCall.ok names =>
      match get_files_loop env destination names with
      | (ltr, PyFlow.normal _) =>
        let tr := tr ++ ltr ++ [Event.txt_print "\n\n[done]".toList] ++ finished_action env
        if env.sidebar then (tr, PyFlow.normal ())
        else
          let tr := tr ++ [Event.add_dialog]
          match env.dialog with
          | Answer.cancel => (tr, PyFlow.normal ())
          | Answer.yes => (tr ++ [Event.add_project destination false], PyFlow.normal ())
          | Answer.no => (tr ++ [Event.add_project destination true], PyFlow.normal ())
      | (ltr, PyFlow.raised PyExc.attributeError) =>
        (tr ++ ltr ++ [Event.txt_print ("\n\n".toList ++ not_ready_msg)] ++
          finished_action env, PyFlow.normal ())
      | (ltr, PyFlow.raised e) => (tr ++ ltr, PyFlow.raised e)
    | PyCall.exc PyExc.attributeError =>
      (tr ++ [Event.txt_print ("\n\n".toList ++ not_ready_msg)] ++ finished_action env,
        PyFlow.normal ())
    | PyCall.exc e => (tr, PyFlow.raised e)

/-- `put_file(filepath)`: header, `sampy.put`; `FileNotFoundError` prints
its message, `files.PyboardError` prints a reason line and returns through
`finished_action()`, `AttributeError` prints the not-ready text; a
`TypeError` escaping the inner `try` is caught by the outer handler and
printed.  Every caught path ends in `finished_action()`. -/
def put_file (env : Env) (filepath : List Char) : List Event × PyFlow Unit :=
  match start_sampy env false with
  | (tr, PyFlow.raised e) => (tr, PyFlow.raised e)
  | (tr, PyFlow.normal sampy) =>
    let file := basename filepath
    let tr := tr ++ [Event.txt_print ("\n\n>> put ".toList ++ file)]
    match protoCall sampy env.put_res with
    | PyCall.ok _ =>
      (tr ++ [Event.txt_print "\n\n[done]".toList] ++ finished_action env, PyFlow.normal ())
    | PyCall.exc (PyExc.fileNotFound m) =>
      (tr ++ [Event.txt_print ("\n\n".toList ++ m)] ++ finished_action env, PyFlow.normal ())
    | PyCall.exc (PyExc.pyboardError m) =>
      (tr ++ [Event.txt_print ("\n\nError putting the file.\nReason: ".toList ++ m)] ++
        finished_action env, PyFlow.normal ())
    | PyCall.exc PyExc.attributeError =>
      (tr ++ [Event.txt_print ("\n\n".toList ++ not_ready_msg)] ++ finished_action env,
        PyFlow.normal ())
    | PyCall.exc (PyExc.typeError m) =>
      (tr ++ [Event.txt_print ("\n\n".toList ++ m)] ++ finished_action env, PyFlow.normal ())
    | PyCall.exc e => (tr, PyFlow.raised e)

/-- `remove_file(filepath)`: header, `sampy.rm`; `RuntimeError` message or
not-ready text on `AttributeError`; then print and `finished_action()`. -/
def remove_file (env : Env) (filepath : List Char) : List Event × PyFlow Unit :=
  match start_sampy env false with
  | (tr, PyFlow.raised e) => (tr, PyFlow.raised e)
  | (tr, PyFlow.normal sampy) =>
    let file := basename filepath
    let tr := tr ++ [Event.txt_print ("\n\n>> rm ".toList ++ file)]
    match protoCall sampy env.rm_res with
    | PyCall.ok _ =>
      (tr ++ [Event.txt_print "\n\n[done]".toList] ++ finished_action env, PyFlow.normal ())
    | PyCall.exc (PyExc.runtimeError m) =>
      (tr ++ [Event.txt_print ("\n\n".toList ++ m)] ++ finished_action env, PyFlow.normal ())
    | PyCall.exc PyExc.attributeError =>
      (tr ++ [Event.txt_print ("\n\n".toList ++ not_ready_msg)] ++ finished_action env,
        PyFlow.normal ())
    | PyCall.exc e => (tr, PyFlow.raised e)

/-- `make_folder(folder_name)`: header, `sampy.mkdir`;
`DirectoryExistsError` message or not-ready text on `AttributeError`. -/
def make_folder (env : Env) (folder_name : List Char) : List Event × PyFlow Unit :=
  match start_sampy env false with
  | (tr, PyFlow.raised e) => (tr, PyFlow.raised e)
  | (tr, PyFlow.normal sampy) =>
    let tr := tr ++ [Event.txt_print ("\n\n>> mkdir ".toList ++ folder_name)]
    match protoCall sampy env.mkdir_res with
    | PyCall.ok _ =>
      (tr ++ [Event.txt_print "\n\n[done]".toList] ++ finished_action env, PyFlow.normal ())
    | PyCall.exc (PyExc.dirExists m) =>
      (tr ++ [Event.txt_print ("\n\n".toList ++ m)] ++ finished_action env, PyFlow.normal ())
    | PyCall.exc PyExc.attributeError =>
      (tr ++ [Event.txt_print ("\n\n".toList ++ not_ready_msg)] ++ finished_action env,
        PyFlow.normal ())
    | PyCall.exc e => (tr, PyFlow.raised e)

/-- `remove_folder(folder_name)`: header, `sampy.rmdir`; `RuntimeError`
message or not-ready text on `AttributeError`. -/
def remove_folder (env : Env) (folder_name : List Char) : List Event × PyFlow Unit :=
  match start_sampy env false with
  | (tr, PyFlow.raised e) => (tr, PyFlow.raised e)
  | (tr, PyFlow.normal sampy) =>
    let tr := tr ++ [Event.txt_print ("\n\n>> rmdir ".toList ++ folder_name)]
    match protoCall sampy env.rmdir_res with
    | PyCall.ok _ =>
      (tr ++ [Event.txt_print "\n\n[done]".toList] ++ finished_action env, PyFlow.normal ())
    | PyCall.exc (PyExc.runtimeError m) =>
      (tr ++ [Event.txt_print ("\n\n".toList ++ m)] ++ finished_action env, PyFlow.normal ())
    | PyCall.exc PyExc.attributeError =>
      (tr ++ [Event.txt_print ("\n\n".toList ++ not_ready_msg)] ++ finished_action env,
        PyFlow.normal ())
    | PyCall.exc e => (tr, PyFlow.raised e)

/-- The raw `_help` literal of `help()` before `.replace('    ', '')`. -/
def help_raw : List Char :=
  ("\n\nUsage: sampy COMMAND [ARGS]...\n\n" ++
   "        sampy - Sublime Text version of ampy MicroPython Tool\n\n" ++
   "        Sampy is the Sublime Text version of the ampy tool developed\n" ++
   "        by Adafruit. It\x27s a tool to control MicroPython boards over a\n" ++
   "        serial connection.\n\n" ++
   "        Sampy will allow you to manipulate files on the board\x27s internal\n" ++
   "        filesystem and even run scripts from the console or from the\n" ++
   "        Sublime Text interface.\n\n" ++
   "        Commands:\n" ++
   "           get\t\t\tRetrieve a file from the board.\n" ++
   "           ls\t\t\tList the contens on the board.\n" ++
   "           mkdir\t\tCreate a directory on the board.\n" ++
   "           put\t\t\tPut a file or folder and its contents on the board.\n" ++
   "           reset\t\tPerform soft reset/reboot of the board.\n" ++
   "           rm\t\t\tRemove a file from the board.\n" ++
   "           rmdir\t\tForcefully remove a folder and all its content from board\n" ++
   "           run\t\t\tRun a script and print it\x27s output\n" ++
   "        ").toList

/-- `help()`: quiet session acquisition (no connection attempt), print the
stripped usage block, `finished_action()`. -/
def help (env : Env) : List Event × PyFlow Unit :=
  match start_sampy env true with
  | (tr, PyFlow.raised e) => (tr, PyFlow.raised e)
  | (tr, PyFlow.normal _) =>
    (tr ++ [Event.txt_print (strip4 help_raw)] ++ finished_action env, PyFlow.normal ())

/-- All text rendered to the Output Sink by a trace, in order. -/
def rendered : List Event → List Char
  | [] => []
  | Event.txt_print s :: t => s ++ rendered t
  | _ :: t => rendered t

/-- Number of `finished_action()` invocations recorded in a trace (each
invocation emits exactly one `console_write`). -/
def countFinish (tr : List Event) : Nat :=
  tr.count Event.console_write

/-- Environment of the not-reachable-device scenario: `serial.selected_port()`
found no device, every protocol outcome left at a benign default. -/
def env_no_device : Env :=
  { selected_port := none
    in_use := []
    connect := PyCall.ok ()
    run_res := PyCall.ok ()
    ls_res := PyCall.ok []
    get_res := PyCall.ok []
    get_to_file := fun _ => PyCall.ok ()
    put_res := PyCall.ok ()
    rm_res := PyCall.ok ()
    mkdir_res := PyCall.ok ()
    rmdir_res := PyCall.ok ()
    path_exists := fun _ => false
    sidebar := false
    dialog := Answer.cancel }

/-- Environment of the session-in-use scenario: the selected port already
has a running serial connection. -/
def env_in_use : Env :=
  { env_no_device with
    selected_port := some "COM3".toList
    in_use := ["COM3".toList] }

/-- Environment of a successful fetch with CRLF and lone-CR content. -/
def env_fetch : Env :=
  { env_no_device with
    selected_port := some "COM3".toList
    get_res := PyCall.ok "a\r\nb\rc".toList }

/-- No carriage return survives `replace('\r', '\n')`. -/
theorem cr_not_mem_replace_cr (l : List Char) : '\r' ∉ replace_cr l := by
  induction l with
  | nil => intro h; simp [replace_cr] at h
  | cons c t ih =>
    intro h
    simp only [replace_cr] at h
    rcases List.mem_cons.mp h with h1 | h1
    · by_cases hc : c = '\r'
      · rw [if_pos hc] at h1; exact absurd h1 (by decide)
      · rw [if_neg hc] at h1; exact hc h1.symm
    · exact ih h1

/-- `start_sampy` on a resolved port with a successful connection. -/
theorem start_sampy_ok (env : Env) (p : List Char)
    (h1 : env.selected_port = some p) (h2 : env.connect = PyCall.ok ()) :
    start_sampy env false =
      (start_trace env false ++ [Event.connect_attempt], PyFlow.normal (some ())) := by
  have hp : env.selected_port.isSome = true := by rw [h1]; rfl
  simp [start_sampy, hp, h2]

/-! ## Claim theorems -/

/-- Claim C1: for every upload section containing the reserved key
`write_flash`, the compiled option list contains the argument
`"write_flash " + value` exactly once and strictly after every other
compiled argument, regardless of the key's position in the input ordering;
and the specification's example input compiles to the example plan. -/
theorem C1_write_flash_last :
    (∀ upload wf, lookupKey wfKeyL upload = some wf →
      ∃ pre, get_board_options upload = some (pre ++ ["write_flash ".toList ++ wf]) ∧
        ("write_flash ".toList ++ wf) ∉ pre ∧
        (pre ++ ["write_flash ".toList ++ wf]).count ("write_flash ".toList ++ wf) = 1) ∧
    get_board_options uploadExample =
      some ["--flash_mode=dio".toList, "--flash_freq 40m".toList,
        "write_flash 0x1000 firmware.bin".toList] := by
  constructor
  · intro upload wf h
    have hnot : ("write_flash ".toList ++ wf) ∉ board_options_loop upload := by
      intro hx
      rcases mem_loop_emit hx with ⟨kv, _, hkv, hval⟩
      exact emit_option_ne_wf kv.1 kv.2 wf hkv hval.symm
    refine ⟨board_options_loop upload, by simp [get_board_options, h], hnot, ?_⟩
    rw [List.count_append, List.count_eq_zero.mpr hnot]
    simp
  · rfl

/-- Witness for C1 at the specification's example board configuration. -/
theorem C1_write_flash_last_witness :
    ∃ pre, get_board_options uploadExample =
        some (pre ++ ["write_flash ".toList ++ "0x1000 firmware.bin".toList]) ∧
      ("write_flash ".toList ++ "0x1000 firmware.bin".toList) ∉ pre ∧
      (pre ++ ["write_flash ".toList ++ "0x1000 firmware.bin".toList]).count
        ("write_flash ".toList ++ "0x1000 firmware.bin".toList) = 1 :=
  C1_write_flash_last.1 uploadExample ("0x1000 firmware.bin".toList) rfl

/-- Claim C4 as stated is false: the loop's guard is the substring test
`'write_flash' not in key`, so the key `write_flash2`, although different
from the reserved key, is omitted from the compiled list. -/
theorem C4_counterexample :
    get_board_options
        [("write_flash2".toList, "x".toList), ("write_flash".toList, "v".toList)] =
      some ["write_flash v".toList] ∧
    "write_flash2".toList ≠ "write_flash".toList ∧
    emit_option "write_flash2".toList "x".toList = "write_flash2 x".toList ∧
    "write_flash2 x".toList ∉ ["write_flash v".toList] := by
  exact ⟨rfl, by decide, rfl, by decide⟩

/-- Amended C4: `get_board_options` iterates the upload section in declared
order and emits one `key + separator + value` argument for exactly those
keys that do not contain `write_flash` as a substring; every key containing
that substring (not only the reserved key itself) is omitted. -/
theorem C4_amended_filter_map :
    ∀ upload wf, lookupKey wfKeyL upload = some wf →
      get_board_options upload =
        some (((upload.filter fun kv => !containsSub wfKeyL kv.1).map
            fun kv => emit_option kv.1 kv.2) ++ ["write_flash ".toList ++ wf]) := by
  intro upload wf h
  simp [get_board_options, h, board_options_loop_eq]

/-- Witness for the amended C4 at the example board configuration. -/
theorem C4_amended_filter_map_witness :
    get_board_options uploadExample =
      some (((uploadExample.filter fun kv => !containsSub wfKeyL kv.1).map
          fun kv => emit_option kv.1 kv.2) ++
        ["write_flash ".toList ++ "0x1000 firmware.bin".toList]) :=
  C4_amended_filter_map uploadExample ("0x1000 firmware.bin".toList) rfl

/-- Claim C5: every non-reserved emitted argument separates key and value
with nothing when the key ends in `=` and with exactly one space
otherwise. -/
theorem C5_separator_rule :
    ∀ upload wf k v, lookupKey wfKeyL upload = some wf → (k, v) ∈ upload →
      containsSub wfKeyL k = false →
      ∃ opts, get_board_options upload = some opts ∧
        (k.getLast? = some '=' → k ++ v ∈ opts) ∧
        (k.getLast? ≠ some '=' → k ++ ' ' :: v ∈ opts) := by
  intro upload wf k v h hmem hk
  refine ⟨board_options_loop upload ++ ["write_flash ".toList ++ wf],
    by simp [get_board_options, h], ?_, ?_⟩
  · intro hl
    refine List.mem_append_left _ ?_
    have h2 := emit_mem_loop hmem hk
    unfold emit_option at h2
    rwa [if_pos hl] at h2
  · intro hl
    refine List.mem_append_left _ ?_
    have h2 := emit_mem_loop hmem hk
    unfold emit_option at h2
    rwa [if_neg hl] at h2

/-- Witness for C5: the `=`-terminated key and the plain key of the example
configuration. -/
theorem C5_separator_rule_witness :
    (∃ opts, get_board_options uploadExample = some opts ∧
      (("--flash_mode=".toList).getLast? = some '=' →
        "--flash_mode=".toList ++ "dio".toList ∈ opts) ∧
      (("--flash_mode=".toList).getLast? ≠ some '=' →
        "--flash_mode=".toList ++ ' ' :: "dio".toList ∈ opts)) ∧
    (∃ opts, get_board_options uploadExample = some opts ∧
      (("--flash_freq".toList).getLast? = some '=' →
        "--flash_freq".toList ++ "40m".toList ∈ opts) ∧
      (("--flash_freq".toList).getLast? ≠ some '=' →
        "--flash_freq".toList ++ ' ' :: "40m".toList ∈ opts)) :=
  ⟨C5_separator_rule uploadExample ("0x1000 firmware.bin".toList)
      ("--flash_mode=".toList) ("dio".toList) rfl (by decide) rfl,
   C5_separator_rule uploadExample ("0x1000 firmware.bin".toList)
      ("--flash_freq".toList) ("40m".toList) rfl (by decide) rfl⟩

/-- Claim C2 fails in the code: with a missing session (no resolved port),
`sampy.get` raises `AttributeError`, which `get_file` — alone among the
dispatched operations — does not catch, so the exception propagates and
`finished_action` is never invoked; on the same environment every other
dispatched operation invokes `finished_action` exactly once. -/
theorem C2_get_file_skips_finished_action :
    (get_file env_no_device "boot.py".toList).2 = PyFlow.raised PyExc.attributeError ∧
    countFinish (get_file env_no_device "boot.py".toList).1 = 0 ∧
    countFinish (run_file env_no_device "main.py".toList).1 = 1 ∧
    countFinish (list_files env_no_device).1 = 1 ∧
    countFinish (get_files env_no_device "dest".toList).1 = 1 ∧
    countFinish (put_file env_no_device "main.py".toList).1 = 1 ∧
    countFinish (remove_file env_no_device "main.py".toList).1 = 1 ∧
    countFinish (make_folder env_no_device "lib".toList).1 = 1 ∧
    countFinish (remove_folder env_no_device "lib".toList).1 = 1 ∧
    countFinish (help env_no_device).1 = 1 :=
  ⟨rfl, rfl, rfl, rfl, rfl, rfl, rfl, rfl, rfl, rfl⟩

/-- Claim C3 fails in the code: dispatching `get_file("boot.py")` with no
reachable device does not render the SessionNotReady text at all (the
uncaught `AttributeError` skips every print after the header), whereas
`list_files` on the same environment does render text ending with it. -/
theorem C3_get_file_missing_not_ready_text :
    (get_file env_no_device "boot.py".toList).2 = PyFlow.raised PyExc.attributeError ∧
    not_ready_msg.isSuffixOf (rendered (get_file env_no_device "boot.py".toList).1) = false ∧
    containsSub not_ready_msg (rendered (get_file env_no_device "boot.py".toList).1) = false ∧
    not_ready_msg.isSuffixOf (rendered (list_files env_no_device).1) = true :=
  ⟨rfl, rfl, rfl, rfl⟩

/-- Claim C6: when the resolved port is in the in-use set and quiet is
false, the running session's stop signal strictly precedes the new
connection attempt in the event trace. -/
theorem C6_stop_before_connect (env : Env) (p : List Char)
    (h1 : env.selected_port = some p) (h2 : p ∈ env.in_use) :
    ∃ tr r, start_sampy env false = (tr, r) ∧ Event.stop_task ∈ tr ∧
      Event.connect_attempt ∈ tr ∧
      ∀ j : Nat, tr[j]? = some Event.connect_attempt →
        ∃ i : Nat, i < j ∧ tr[i]? = some Event.stop_task := by
  have htr : start_trace env false = [Event.stop_task, Event.set_focus] := by
    simp [start_trace, port_in_use, h1, h2]
  have hp : env.selected_port.isSome = true := by rw [h1]; rfl
  have key : (start_sampy env false).1 =
      [Event.stop_task, Event.set_focus, Event.connect_attempt] := by
    cases hc : env.connect <;> simp [start_sampy, hp, hc, htr]
  refine ⟨(start_sampy env false).1, (start_sampy env false).2, rfl, ?_, ?_, ?_⟩
  · rw [key]; decide
  · rw [key]; decide
  · intro j hj
    rw [key] at hj
    rw [key]
    match j with
    | 0 => exact absurd hj (by decide)
    | 1 => exact absurd hj (by decide)
    | 2 => exact ⟨0, by omega, rfl⟩
    | j + 3 => simp at hj

/-- Witness for C6: port `COM3` is selected while already in use. -/
theorem C6_stop_before_connect_witness :
    ∃ tr r, start_sampy env_in_use false = (tr, r) ∧ Event.stop_task ∈ tr ∧
      Event.connect_attempt ∈ tr ∧
      ∀ j : Nat, tr[j]? = some Event.connect_attempt →
        ∃ i : Nat, i < j ∧ tr[i]? = some Event.stop_task :=
  C6_stop_before_connect env_in_use ("COM3".toList) rfl (by decide)

/-- Claim C7: the content printed by `get_file` is the fetched text with
every CRLF and every remaining CR turned into a single LF, and it contains
no residual carriage return. -/
theorem C7_get_file_normalizes (env : Env) (p fn raw : List Char)
    (h1 : env.selected_port = some p) (h2 : env.connect = PyCall.ok ())
    (h3 : env.get_res = PyCall.ok raw) :
    ∃ tr, get_file env fn = (tr, PyFlow.normal ()) ∧
      Event.txt_print ("\n\n".toList ++ replace_cr (replace_crlf raw)) ∈ tr ∧
      '\r' ∉ "\n\n".toList ++ replace_cr (replace_crlf raw) := by
  refine ⟨start_trace env false ++ [Event.connect_attempt] ++
      [Event.txt_print ("\n\n>> get ".toList ++ fn)] ++
      [Event.txt_print ("\n\n".toList ++ replace_cr (replace_crlf raw))] ++
      finished_action env, ?_, ?_, ?_⟩
  · unfold get_file
    rw [start_sampy_ok env p h1 h2]
    simp [protoCall, h3]
  · simp [List.mem_append]
  · intro h
    rcases List.mem_append.mp h with h1 | h1
    · exact absurd h1 (by decide)
    · exact cr_not_mem_replace_cr (replace_crlf raw) h1

/-- Witness for C7: fetching content `"a\r\nb\rc"` over port `COM3`. -/
theorem C7_get_file_normalizes_witness :
    ∃ tr, get_file env_fetch "boot.py".toList = (tr, PyFlow.normal ()) ∧
      Event.txt_print ("\n\n".toList ++ replace_cr (replace_crlf "a\r\nb\rc".toList)) ∈ tr ∧
      '\r' ∉ "\n\n".toList ++ replace_cr (replace_crlf "a\r\nb\rc".toList) :=
  C7_get_file_normalizes env_fetch ("COM3".toList) ("boot.py".toList)
    ("a\r\nb\rc".toList) rfl rfl rfl

/-- Claim C8 as stated is false: `txt.set_focus()` runs unconditionally in
`start_sampy`, so even a quiet call brings the Output Sink to the
foreground. -/
theorem C8_counterexample :
    Event.set_focus ∈ (start_sampy env_no_device true).1 := by decide

/-- Amended C8: the Output Sink is brought to the foreground on every
`start_sampy` call, whether or not quiet is set. -/
theorem C8_amended_always_focus (env : Env) (quiet : Bool) :
    Event.set_focus ∈ (start_sampy env quiet).1 := by
  have hst : Event.set_focus ∈ start_trace env quiet := by
    unfold start_trace
    split <;> simp
  unfold start_sampy
  split
  · cases env.connect <;> simp [hst]
  · simpa using hst

/-- Claim C9: answering Cancel at the erase prompt aborts `burn_firmware`
with no side effect: no console is shown, no erase runs, the port is not
checked (so no port argument is used) and the external flashing process is
not invoked. -/
theorem C9_cancel_no_side_effect (upload : List (List Char × List Char))
    (url firmwares port : List Char) (wf : List Char) (port_ok : Bool)
    (h : lookupKey wfKeyL upload = some wf) :
    burn_firmware upload url firmwares port Answer.cancel port_ok =
      ([BEvent.erase_prompt], PyFlow.normal ()) ∧
    BEvent.show_console ∉ [BEvent.erase_prompt] ∧
    BEvent.erase_flash ∉ [BEvent.erase_prompt] ∧
    (∀ q, BEvent.check_port q ∉ [BEvent.erase_prompt]) ∧
    (∀ o, BEvent.run_command o ∉ [BEvent.erase_prompt]) := by
  refine ⟨?_, by decide, by decide, fun q => by simp, fun o => by simp⟩
  simp [burn_firmware, get_board_options, h]

/-- Witness for C9 at the example configuration. -/
theorem C9_cancel_no_side_effect_witness :
    burn_firmware uploadExample "fw.bin".toList "firmwares".toList "COM3".toList
        Answer.cancel true =
      ([BEvent.erase_prompt], PyFlow.normal ()) ∧
    BEvent.show_console ∉ [BEvent.erase_prompt] ∧
    BEvent.erase_flash ∉ [BEvent.erase_prompt] ∧
    (∀ q, BEvent.check_port q ∉ [BEvent.erase_prompt]) ∧
    (∀ o, BEvent.run_command o ∉ [BEvent.erase_prompt]) :=
  C9_cancel_no_side_effect uploadExample "fw.bin".toList "firmwares".toList
    "COM3".toList ("0x1000 firmware.bin".toList) true rfl

/-- Claim C10: with Yes at the erase prompt, the erase step precedes the
port reachability check in the trace, so when the check fails the external
flashing process is not invoked although the erase already happened. -/
theorem C10_erase_before_port_check (upload : List (List Char × List Char))
    (url firmwares port : List Char) (wf : List Char)
    (h : lookupKey wfKeyL upload = some wf) :
    ∃ tr, burn_firmware upload url firmwares port Answer.yes false =
        (tr, PyFlow.normal ()) ∧
      BEvent.erase_flash ∈ tr ∧ (∀ o, BEvent.run_command o ∉ tr) ∧
      ∃ i j : Nat, i < j ∧ tr[i]? = some BEvent.erase_flash ∧
        tr[j]? = some (BEvent.check_port port) := by
  refine ⟨[BEvent.erase_prompt, BEvent.show_console, BEvent.erase_flash,
      BEvent.check_port port], ?_, by simp, fun o => by simp, 2, 3, by omega, rfl, rfl⟩
  simp [burn_firmware, get_board_options, h]

/-- Witness for C10 at the example configuration. -/
theorem C10_erase_before_port_check_witness :
    ∃ tr, burn_firmware uploadExample "fw.bin".toList "firmwares".toList "COM3".toList
        Answer.yes false = (tr, PyFlow.normal ()) ∧
      BEvent.erase_flash ∈ tr ∧ (∀ o, BEvent.run_command o ∉ tr) ∧
      ∃ i j : Nat, i < j ∧ tr[i]? = some BEvent.erase_flash ∧
        tr[j]? = some (BEvent.check_port "COM3".toList) :=
  C10_erase_before_port_check uploadExample "fw.bin".toList "firmwares".toList
    "COM3".toList ("0x1000 firmware.bin".toList) rfl
